import Mathlib

/-!
# Verification of the defi-monitor anomaly-detection and alert-lifecycle engine

Shallow embedding of the Python sources of `Eshwari07/defi-monitor`:
database tables become lists of records, SQLAlchemy queries become list
functions, `Decimal`/`float` metric values become `ℚ`, UTC instants become
`Int` (seconds), and Python truthiness on optional numerics (`if x`,
`not x`) is modelled explicitly (`none` and `some 0` are both falsy).

Sources embedded:
- `src/models.py`            — `ProtocolSnapshot`, `ProtocolAlert`
- `src/app/core/config.py`   — `Settings` defaults
- `src/app/services/anomaly_detector.py` — `AnomalyDetector`
- `src/main.py`              — `resolve_alert`, `_get_protocol_status`
- `src/ingest.py`            — `DataIngestor._store_snapshot`, outcome counting
- `src/fetchers/defillama.py` — `DeFiLlamaFetcher.fetch_tvl` retry loop
-/

namespace DefiMonitor

/-- Model of `models.ProtocolSnapshot`: one row of the `protocol_snapshots` table.
`tvl_usd`, `apy_7d`, `utilization_rate` are nullable DECIMAL columns,
modelled as `Option ℚ`; `timestamp` is a UTC instant in seconds. -/
structure ProtocolSnapshot where
  protocol_name : String
  timestamp : Int
  tvl_usd : Option ℚ
  apy_7d : Option ℚ
  utilization_rate : Option ℚ
deriving Repr, DecidableEq

/-- Model of `models.ProtocolAlert`: one row of the `protocol_alerts` table.
`id` is the autoincrement primary key; `resolved_at = none` means open. -/
structure ProtocolAlert where
  id : Nat
  protocol_name : String
  alert_type : String
  severity : String
  message : String
  triggered_at : Int
  resolved_at : Option Int
deriving Repr, DecidableEq

/-- Model of the `app/core/config.py` `Settings` with its literal defaults
(`0.20`, `2.0`, `0.95` read as exact rationals). -/
structure Settings where
  API_RETRY_ATTEMPTS : Nat := 3
  API_RETRY_DELAY_SECONDS : ℚ := 1
  TVL_DROP_THRESHOLD : ℚ := 1/5
  APY_MIN_THRESHOLD : ℚ := 2
  UTILIZATION_MAX_THRESHOLD : ℚ := 19/20
  TVL_LOOKBACK_HOURS : Int := 24
deriving Repr, DecidableEq

/-- The default settings object (`settings = Settings()` in config.py). -/
def settings : Settings := {}

/-- Python truthiness of an `Optional[Decimal]`: `not x` is true exactly
when `x` is `None` or equal to zero. Used by the guards
`if not latest.tvl_usd`, `if not latest.apy_7d`, `if tvl_usd else None`. -/
def isFalsy (x : Option ℚ) : Bool :=
  match x with
  | none => true
  | some v => v == 0

/-- Model of `AnomalyDetector.LENDING_PROTOCOLS`, the set holding "felix". -/
def LENDING_PROTOCOLS : List String := ["felix"]

/-! ## Query layer

The SQLAlchemy queries of the detector, modelled over a list of rows.
`order_by(desc(timestamp)).first()` keeps, among matching rows, the one
with the greatest timestamp (first such row on ties). -/

/-- Pick, of two candidate rows, the one `ORDER BY timestamp DESC ... first()`
would return (keeps the accumulated row on ties). -/
def moreRecent (acc : Option ProtocolSnapshot) (s : ProtocolSnapshot) :
    Option ProtocolSnapshot :=
  match acc with
  | none => some s
  | some b => if s.timestamp > b.timestamp then some s else some b

/-- Model of `db.query(ProtocolSnapshot).filter(protocol_name == p)
.order_by(desc(timestamp)).first()`. -/
def latestSnapshot (snaps : List ProtocolSnapshot) (p : String) :
    Option ProtocolSnapshot :=
  (snaps.filter (fun s => s.protocol_name == p)).foldl moreRecent none

/-- Model of `db.query(ProtocolSnapshot).filter(protocol_name == p, timestamp <= cutoff)
.order_by(desc(timestamp)).first()`. -/
def latestSnapshotAtOrBefore (snaps : List ProtocolSnapshot) (p : String)
    (cutoff : Int) : Option ProtocolSnapshot :=
  (snaps.filter (fun s => s.protocol_name == p && s.timestamp ≤ cutoff)).foldl
    moreRecent none

/-- Model of `AnomalyDetector._get_active_protocols`: distinct protocol names having
a snapshot with `timestamp >= now - 48h` (first-occurrence order). -/
def activeProtocols (snaps : List ProtocolSnapshot) (now : Int) : List String :=
  (snaps.filter (fun s => now - 48 * 3600 ≤ s.timestamp)).foldl
    (fun acc s =>
      if acc.contains s.protocol_name then acc else acc ++ [s.protocol_name]) []

/-! ## Alert store operations -/

/-- The open-alert existence check of `AnomalyDetector._create_alert`:
`query(ProtocolAlert).filter(protocol_name == p, alert_type == t,
resolved_at.is_(None)).first()` is non-empty. -/
def hasOpenAlert (alerts : List ProtocolAlert) (p t : String) : Bool :=
  alerts.any (fun a =>
    a.protocol_name == p && a.alert_type == t && a.resolved_at == none)

/-- Model of `AnomalyDetector._create_alert`: if an unresolved alert of the same
(protocol, alert_type) exists, return `none` and leave the store unchanged;
otherwise insert a fresh open alert with `triggered_at = now` and the next
autoincrement id, and return it. Result: (alert store, next id, created). -/
def create_alert (alerts : List ProtocolAlert) (nextId : Nat)
    (p t sev msg : String) (now : Int) :
    List ProtocolAlert × Nat × Option ProtocolAlert :=
  if hasOpenAlert alerts p t then
    (alerts, nextId, none)
  else
    let a : ProtocolAlert :=
      { id := nextId, protocol_name := p, alert_type := t, severity := sev
        message := msg, triggered_at := now, resolved_at := none }
    (alerts ++ [a], nextId + 1, some a)

/-! ## Detection rules

Each `_check_*` method first computes whether the rule fires from the
snapshot table alone (the "candidate", carrying the message), then calls
`_create_alert`. -/

/-- The message built by `_check_tvl_drop` (the numeric f-string formatting
rendered via `toString` of the exact rationals). -/
def tvl_message (drop_pct old_tvl current_tvl : ℚ) (lookback_hours : Int) :
    String :=
  "TVL dropped " ++ toString drop_pct ++ " in " ++ toString lookback_hours ++
    "h: $" ++ toString old_tvl ++ " -> $" ++ toString current_tvl

/-- Condition part of `AnomalyDetector._check_tvl_drop`:
`latest` is the most recent snapshot of the protocol (any fields); skip if
missing or its `tvl_usd` is falsy; `old` is the most recent snapshot with
`timestamp <= now - lookback_hours`; skip if missing or its `tvl_usd` is
falsy or zero; fire when `(old - current) / old > TVL_DROP_THRESHOLD`. -/
def tvl_candidate (snaps : List ProtocolSnapshot) (p : String) (now : Int)
    (cfg : Settings) : Option String :=
  match latestSnapshot snaps p with
  | none => none
  | some latest =>
    if isFalsy latest.tvl_usd then none
    else
      match latestSnapshotAtOrBefore snaps p
          (now - cfg.TVL_LOOKBACK_HOURS * 3600) with
      | none => none
      | some old =>
        if isFalsy old.tvl_usd then none
        else
          let current_tvl := latest.tvl_usd.getD 0
          let old_tvl := old.tvl_usd.getD 0
          if old_tvl == 0 then none
          else
            let drop_pct := (old_tvl - current_tvl) / old_tvl
            if drop_pct > cfg.TVL_DROP_THRESHOLD then
              some (tvl_message drop_pct old_tvl current_tvl
                cfg.TVL_LOOKBACK_HOURS)
            else none

/-- Model of `AnomalyDetector._check_tvl_drop`. -/
def check_tvl_drop (snaps : List ProtocolSnapshot) (alerts : List ProtocolAlert)
    (nextId : Nat) (p : String) (now : Int) (cfg : Settings) :
    List ProtocolAlert × Nat × Option ProtocolAlert :=
  match tvl_candidate snaps p now cfg with
  | none => (alerts, nextId, none)
  | some msg => create_alert alerts nextId p "tvl_drop" "critical" msg now

/-- Condition part of `AnomalyDetector._check_apy_low`: `latest` is the most
recent snapshot of the protocol; skip if missing or its `apy_7d` is falsy;
fire when `apy < APY_MIN_THRESHOLD`. -/
def apy_candidate (snaps : List ProtocolSnapshot) (p : String)
    (cfg : Settings) : Option String :=
  match latestSnapshot snaps p with
  | none => none
  | some latest =>
    if isFalsy latest.apy_7d then none
    else
      let apy := latest.apy_7d.getD 0
      if apy < cfg.APY_MIN_THRESHOLD then
        some ("APY at " ++ toString apy ++ "% (below " ++
          toString cfg.APY_MIN_THRESHOLD ++ "% threshold)")
      else none

/-- Model of `AnomalyDetector._check_apy_low`. -/
def check_apy_low (snaps : List ProtocolSnapshot) (alerts : List ProtocolAlert)
    (nextId : Nat) (p : String) (now : Int) (cfg : Settings) :
    List ProtocolAlert × Nat × Option ProtocolAlert :=
  match apy_candidate snaps p cfg with
  | none => (alerts, nextId, none)
  | some msg => create_alert alerts nextId p "apy_low" "warning" msg now

/-- Condition part of `AnomalyDetector._check_utilization_high`: `latest` is
the most recent snapshot of the protocol; skip if missing or its
`utilization_rate` is falsy; fire when `util > UTILIZATION_MAX_THRESHOLD`. -/
def util_candidate (snaps : List ProtocolSnapshot) (p : String)
    (cfg : Settings) : Option String :=
  match latestSnapshot snaps p with
  | none => none
  | some latest =>
    if isFalsy latest.utilization_rate then none
    else
      let util := latest.utilization_rate.getD 0
      if util > cfg.UTILIZATION_MAX_THRESHOLD then
        some ("Utilization at " ++ toString util ++ " (above " ++
          toString cfg.UTILIZATION_MAX_THRESHOLD ++ " threshold)")
      else none

/-- Model of `AnomalyDetector._check_utilization_high`. -/
def check_utilization_high (snaps : List ProtocolSnapshot)
    (alerts : List ProtocolAlert) (nextId : Nat) (p : String) (now : Int)
    (cfg : Settings) : List ProtocolAlert × Nat × Option ProtocolAlert :=
  match util_candidate snaps p cfg with
  | none => (alerts, nextId, none)
  | some msg => create_alert alerts nextId p "utilization_high" "warning" msg now

/-- One iteration of the protocol loop of `AnomalyDetector.detect_all`:
check TVL drop, then APY, then (for lending protocols only) utilization,
accumulating created alerts in that order. -/
def detect_protocol (snaps : List ProtocolSnapshot) (alerts : List ProtocolAlert)
    (nextId : Nat) (p : String) (now : Int) (cfg : Settings) :
    List ProtocolAlert × Nat × List ProtocolAlert :=
  let r1 := check_tvl_drop snaps alerts nextId p now cfg
  let r2 := check_apy_low snaps r1.1 r1.2.1 p now cfg
  let r3 :=
    if LENDING_PROTOCOLS.contains p then
      check_utilization_high snaps r2.1 r2.2.1 p now cfg
    else (r2.1, r2.2.1, none)
  (r3.1, r3.2.1, r1.2.2.toList ++ r2.2.2.toList ++ r3.2.2.toList)

/-- The protocol loop of `AnomalyDetector.detect_all` over a protocol list. -/
def detect_list (snaps : List ProtocolSnapshot) (alerts : List ProtocolAlert)
    (nextId : Nat) (ps : List String) (now : Int) (cfg : Settings) :
    List ProtocolAlert × Nat × List ProtocolAlert :=
  match ps with
  | [] => (alerts, nextId, [])
  | p :: rest =>
    let r1 := detect_protocol snaps alerts nextId p now cfg
    let r2 := detect_list snaps r1.1 r1.2.1 rest now cfg
    (r2.1, r2.2.1, r1.2.2 ++ r2.2.2)

/-- Model of `AnomalyDetector.detect_all`: run every rule over every active protocol,
returning (alert store, next id, alerts created this pass). -/
def detect_all (snaps : List ProtocolSnapshot) (alerts : List ProtocolAlert)
    (nextId : Nat) (now : Int) (cfg : Settings) :
    List ProtocolAlert × Nat × List ProtocolAlert :=
  detect_list snaps alerts nextId (activeProtocols snaps now) now cfg

/-! ## Alert resolution and status projection (`src/main.py`) -/

/-- Outcome of `POST /alerts/\x7balert_id\x7d/resolve`: either an HTTP-style
rejection (status code, detail) or the updated store and alert. -/
inductive ResolveResult where
  | notFound
  | alreadyResolved
  | ok (alerts : List ProtocolAlert) (alert : ProtocolAlert)
deriving Repr, DecidableEq

/-- Model of `main.resolve_alert`: 404 when no alert has the id, 400 when the alert
already carries a `resolved_at`, otherwise set `resolved_at = now` on that
row and commit. -/
def resolve_alert (alerts : List ProtocolAlert) (alert_id : Nat) (now : Int) :
    ResolveResult :=
  match alerts.find? (fun a => a.id == alert_id) with
  | none => .notFound
  | some a =>
    if a.resolved_at.isSome then .alreadyResolved
    else
      let a' := { a with resolved_at := some now }
      .ok (alerts.map (fun b => if b.id == alert_id then a' else b)) a'

/-- Model of `main._get_protocol_status`: "critical" if an open critical alert exists
for the protocol, else "warning" if an open warning alert exists, else
"healthy". -/
def get_protocol_status (alerts : List ProtocolAlert) (p : String) : String :=
  if alerts.any (fun a =>
      a.protocol_name == p && a.severity == "critical" && a.resolved_at == none)
  then "critical"
  else if alerts.any (fun a =>
      a.protocol_name == p && a.severity == "warning" && a.resolved_at == none)
  then "warning"
  else "healthy"

/-! ## Snapshot storage (`src/models.py`, `src/ingest.py`) -/

/-- The `uq_protocol_timestamp` unique constraint of `protocol_snapshots`:
a row with this (protocol_name, timestamp) key already exists. -/
def hasSnapshotKey (snaps : List ProtocolSnapshot) (p : String) (ts : Int) :
    Bool :=
  snaps.any (fun s => s.protocol_name == p && s.timestamp == ts)

/-- Model of `Decimal(str(x)) if x else None`: falsy inputs (None and 0) are stored
as NULL. -/
def normalizeMetric (x : Option ℚ) : Option ℚ :=
  if isFalsy x then none else x

/-- Model of `DataIngestor._store_snapshot`, returning (snapshot table, bool result):
build the row with falsy metrics nulled; committing a duplicate
(protocol_name, timestamp) key raises IntegrityError, which is caught and
reported as success with no new row; after a successful commit the success
log formats `tvl_usd` with a numeric format spec, which raises TypeError on
`None` — caught by the generic handler (after the commit), returning False
although the row is already persisted. -/
def store_snapshot (snaps : List ProtocolSnapshot) (p : String) (ts : Int)
    (tvl_usd apy_7d utilization_rate : Option ℚ) :
    List ProtocolSnapshot × Bool :=
  let snap : ProtocolSnapshot :=
    { protocol_name := p, timestamp := ts
      tvl_usd := normalizeMetric tvl_usd
      apy_7d := normalizeMetric apy_7d
      utilization_rate := normalizeMetric utilization_rate }
  if hasSnapshotKey snaps p ts then
    (snaps, true)
  else
    match tvl_usd with
    | none => (snaps ++ [snap], false)
    | some _ => (snaps ++ [snap], true)

/-- The success/failure tally of `DataIngestor.ingest_all` over per-protocol
outcomes: (successful, failed). -/
def count_outcomes (outcomes : List Bool) : Nat × Nat :=
  outcomes.foldl (fun acc o => if o then (acc.1 + 1, acc.2) else (acc.1, acc.2 + 1))
    (0, 0)

/-! ## DeFiLlama fetch with retry (`src/fetchers/defillama.py`) -/

/-- Outcome of one HTTP attempt in `DeFiLlamaFetcher.fetch_tvl`.
`ok none` is a 200 whose body does not parse as a float (ValueError). -/
inductive FetchResp where
  | ok (body : Option ℚ)
  | serverError
  | notFound
  | otherStatus
  | timeout
  | requestError
deriving Repr, DecidableEq

/-- The `for attempt in range(max_retries)` loop of `fetch_tvl`, with the
response of each attempt given by the oracle `resp`. Returns
(result, attempts made, backoff delays slept). `fuel` is the number of loop
iterations remaining; on 5xx or timeout at a non-final attempt the loop
sleeps `retry_delay * (attempt + 1)` and continues, at the final attempt it
falls through and the loop ends with the trailing `return None`. -/
def fetch_tvl_loop (resp : Nat → FetchResp) (maxRetries : Nat)
    (retryDelay : ℚ) (attempt : Nat) : Nat → Option ℚ × Nat × List ℚ
  | 0 => (none, attempt, [])
  | fuel + 1 =>
    match resp attempt with
    | .ok (some v) => (some v, attempt + 1, [])
    | .ok none => (none, attempt + 1, [])
    | .notFound => (none, attempt + 1, [])
    | .otherStatus => (none, attempt + 1, [])
    | .requestError => (none, attempt + 1, [])
    | .serverError =>
      if attempt + 1 < maxRetries then
        let r := fetch_tvl_loop resp maxRetries retryDelay (attempt + 1) fuel
        (r.1, r.2.1, retryDelay * (attempt + 1) :: r.2.2)
      else (none, attempt + 1, [])
    | .timeout =>
      if attempt + 1 < maxRetries then
        let r := fetch_tvl_loop resp maxRetries retryDelay (attempt + 1) fuel
        (r.1, r.2.1, retryDelay * (attempt + 1) :: r.2.2)
      else (none, attempt + 1, [])

/-- Model of `DeFiLlamaFetcher.fetch_tvl`. -/
def fetch_tvl (resp : Nat → FetchResp) (cfg : Settings) :
    Option ℚ × Nat × List ℚ :=
  fetch_tvl_loop resp cfg.API_RETRY_ATTEMPTS cfg.API_RETRY_DELAY_SECONDS 0
    cfg.API_RETRY_ATTEMPTS

/-! ## Spec-side rule variants

The specification describes each rule's `latest` as "the most recent sample
with a non-null <metric>". These definitions follow the spec's words (not
the code) and exist only to be compared against the code-side rules. -/

/-- Most recent snapshot of the protocol whose given field is non-null
(spec's "most recent sample with a non-null TVL/APY/utilization"). -/
def latestWithField (snaps : List ProtocolSnapshot) (p : String)
    (field : ProtocolSnapshot → Option ℚ) : Option ProtocolSnapshot :=
  (snaps.filter (fun s => s.protocol_name == p && (field s).isSome)).foldl
    moreRecent none

/-- Spec-side TVL-drop rule: `latest` = most recent sample with non-null TVL,
`old` = most recent sample with non-null TVL at or before `now - lookback`;
skip if either is missing or `old.tvl == 0`; fire when drop > threshold. -/
def tvl_candidate_spec (snaps : List ProtocolSnapshot) (p : String) (now : Int)
    (cfg : Settings) : Bool :=
  match latestWithField snaps p ProtocolSnapshot.tvl_usd,
      latestWithField
        (snaps.filter (fun s => s.timestamp ≤ now - cfg.TVL_LOOKBACK_HOURS * 3600))
        p ProtocolSnapshot.tvl_usd with
  | some latest, some old =>
    let current_tvl := latest.tvl_usd.getD 0
    let old_tvl := old.tvl_usd.getD 0
    if old_tvl = 0 then false
    else decide ((old_tvl - current_tvl) / old_tvl > cfg.TVL_DROP_THRESHOLD)
  | _, _ => false

/-- Spec-side APY-low rule: `latest` = most recent sample with non-null APY;
skip if missing; fire when `latest.apy < threshold`. -/
def apy_candidate_spec (snaps : List ProtocolSnapshot) (p : String)
    (cfg : Settings) : Bool :=
  match latestWithField snaps p ProtocolSnapshot.apy_7d with
  | some latest => decide (latest.apy_7d.getD 0 < cfg.APY_MIN_THRESHOLD)
  | none => false

/-- Spec-side utilization-high rule: `latest` = most recent sample with
non-null utilization; skip if missing; fire when above threshold. -/
def util_candidate_spec (snaps : List ProtocolSnapshot) (p : String)
    (cfg : Settings) : Bool :=
  match latestWithField snaps p ProtocolSnapshot.utilization_rate with
  | some latest =>
    decide (latest.utilization_rate.getD 0 > cfg.UTILIZATION_MAX_THRESHOLD)
  | none => false

/-! ## Concrete scenario data -/

/-- A protocol whose newest snapshot has a NULL TVL while older snapshots
hold TVLs of $100M (25h ago) and $50M: the spec-side rule fires, the code
skips. -/
def nullLatestTvlSnaps : List ProtocolSnapshot :=
  [⟨"p", 0, some 100000000, none, none⟩,
   ⟨"p", 90000, some 50000000, none, none⟩,
   ⟨"p", 95000, none, none, none⟩]

/-- Old TVL $100M at T-25h, latest $50M: a 50% drop. -/
def drop50Snaps : List ProtocolSnapshot :=
  [⟨"p", 0, some 100000000, none, none⟩,
   ⟨"p", 90000, some 50000000, none, none⟩]

/-- Old TVL $100M at T-25h, latest $85M: a 15% drop. -/
def drop15Snaps : List ProtocolSnapshot :=
  [⟨"p", 0, some 100000000, none, none⟩,
   ⟨"p", 90000, some 85000000, none, none⟩]

/-- A protocol whose newest snapshot has a NULL APY while an older one has
APY 1.5: the spec-side rule fires, the code skips. -/
def nullLatestApySnaps : List ProtocolSnapshot :=
  [⟨"p", 0, none, some (3/2), none⟩,
   ⟨"p", 10, none, none, none⟩]

/-- Latest APY 1.5 / 2.5 for the APY-low examples. -/
def apy15Snaps : List ProtocolSnapshot := [⟨"p", 0, none, some (3/2), none⟩]

def apy25Snaps : List ProtocolSnapshot := [⟨"p", 0, none, some (5/2), none⟩]

/-- A lending protocol whose newest snapshot has NULL utilization while an
older one has utilization 0.99: the spec-side rule fires, the code skips. -/
def nullLatestUtilSnaps : List ProtocolSnapshot :=
  [⟨"felix", 0, none, none, some (99/100)⟩,
   ⟨"felix", 10, none, none, none⟩]

/-- A non-lending protocol with utilization 0.99. -/
def nonLendingUtilSnaps : List ProtocolSnapshot :=
  [⟨"hlp", 0, none, none, some (99/100)⟩]

/-- The open-alert count per (protocol, alert_type): the dedup invariant of
the spec says this never exceeds one. -/
def countOpen (alerts : List ProtocolAlert) (p t : String) : Nat :=
  (alerts.filter (fun a =>
    a.protocol_name == p && a.alert_type == t && a.resolved_at == none)).length

/-- At most one open alert per (protocol, kind). -/
def AtMostOneOpen (alerts : List ProtocolAlert) : Prop :=
  ∀ p t, countOpen alerts p t ≤ 1

/-- Every rule that fires for the protocol already has an open alert of its
kind in the store — the state after a detection pass has visited the
protocol. -/
def Covered (snaps : List ProtocolSnapshot) (alerts : List ProtocolAlert)
    (p : String) (now : Int) (cfg : Settings) : Prop :=
  ((tvl_candidate snaps p now cfg).isSome = true →
    hasOpenAlert alerts p "tvl_drop" = true) ∧
  ((apy_candidate snaps p cfg).isSome = true →
    hasOpenAlert alerts p "apy_low" = true) ∧
  (LENDING_PROTOCOLS.contains p = true →
    (util_candidate snaps p cfg).isSome = true →
    hasOpenAlert alerts p "utilization_high" = true)

/-- Alert store and sample set for the C1 dedup scenario: one open
`tvl_drop` alert for "p", and a protocol "q" whose sole sample has APY
1.5. -/
def c1Alerts : List ProtocolAlert :=
  [⟨0, "p", "tvl_drop", "critical", "m", 0, none⟩]

def c1Snaps : List ProtocolSnapshot := [⟨"q", 0, none, some (3/2), none⟩]

/-- A single already-resolved critical alert, for the C6 witness. -/
def c6Alerts : List ProtocolAlert :=
  [⟨0, "p", "tvl_drop", "critical", "m", 0, some 3⟩]

/-! ## Helper lemmas -/

lemma hasSnapshotKey_append (snaps e : List ProtocolSnapshot) (p : String)
    (ts : Int) :
    hasSnapshotKey (snaps ++ e) p ts =
      (hasSnapshotKey snaps p ts || hasSnapshotKey e p ts) := by
  simp [hasSnapshotKey, List.any_append]

lemma store_snapshot_dup (snaps : List ProtocolSnapshot) (p : String)
    (ts : Int) (tvl apy util : Option ℚ)
    (h : hasSnapshotKey snaps p ts = true) :
    store_snapshot snaps p ts tvl apy util = (snaps, true) := by
  unfold store_snapshot
  simp [h]

lemma store_snapshot_new (snaps : List ProtocolSnapshot) (p : String)
    (ts : Int) (tvl apy util : Option ℚ)
    (h : hasSnapshotKey snaps p ts = false) :
    store_snapshot snaps p ts tvl apy util =
      (snaps ++ [⟨p, ts, normalizeMetric tvl, normalizeMetric apy,
        normalizeMetric util⟩], tvl.isSome) := by
  unfold store_snapshot
  cases tvl <;> simp [h]

lemma store_snapshot_hasKey (snaps : List ProtocolSnapshot) (p : String)
    (ts : Int) (tvl apy util : Option ℚ) :
    hasSnapshotKey (store_snapshot snaps p ts tvl apy util).1 p ts = true := by
  by_cases h : hasSnapshotKey snaps p ts
  · rw [store_snapshot_dup snaps p ts tvl apy util h]
    exact h
  · rw [store_snapshot_new snaps p ts tvl apy util (by simpa using h)]
    rw [hasSnapshotKey_append]
    have h1 : hasSnapshotKey [⟨p, ts, normalizeMetric tvl, normalizeMetric apy,
        normalizeMetric util⟩] p ts = true := by
      simp [hasSnapshotKey]
    simp [h1]

lemma hasOpenAlert_append (l e : List ProtocolAlert) (p t : String) :
    hasOpenAlert (l ++ e) p t = (hasOpenAlert l p t || hasOpenAlert e p t) := by
  simp [hasOpenAlert, List.any_append]

lemma create_alert_dup (alerts : List ProtocolAlert) (nid : Nat)
    (p t sev msg : String) (now : Int) (h : hasOpenAlert alerts p t = true) :
    create_alert alerts nid p t sev msg now = (alerts, nid, none) := by
  unfold create_alert
  simp [h]

lemma create_alert_new (alerts : List ProtocolAlert) (nid : Nat)
    (p t sev msg : String) (now : Int) (h : hasOpenAlert alerts p t = false) :
    create_alert alerts nid p t sev msg now =
      (alerts ++ [⟨nid, p, t, sev, msg, now, none⟩], nid + 1,
        some ⟨nid, p, t, sev, msg, now, none⟩) := by
  unfold create_alert
  simp [h]

lemma create_alert_created_type (alerts : List ProtocolAlert) (nid : Nat)
    (p t sev msg : String) (now : Int) (a : ProtocolAlert)
    (h : (create_alert alerts nid p t sev msg now).2.2 = some a) :
    a.alert_type = t := by
  by_cases hopen : hasOpenAlert alerts p t
  · rw [create_alert_dup alerts nid p t sev msg now hopen] at h
    simp at h
  · rw [create_alert_new alerts nid p t sev msg now
      (Bool.not_eq_true _ ▸ hopen)] at h
    simp at h
    rw [← h]

lemma check_tvl_drop_created_type (snaps : List ProtocolSnapshot)
    (alerts : List ProtocolAlert) (nid : Nat) (p : String) (now : Int)
    (cfg : Settings) (a : ProtocolAlert)
    (h : (check_tvl_drop snaps alerts nid p now cfg).2.2 = some a) :
    a.alert_type = "tvl_drop" := by
  unfold check_tvl_drop at h
  cases hc : tvl_candidate snaps p now cfg with
  | none => rw [hc] at h; simp at h
  | some msg =>
    rw [hc] at h
    exact create_alert_created_type alerts nid p "tvl_drop" "critical" msg
      now a h

lemma check_apy_low_created_type (snaps : List ProtocolSnapshot)
    (alerts : List ProtocolAlert) (nid : Nat) (p : String) (now : Int)
    (cfg : Settings) (a : ProtocolAlert)
    (h : (check_apy_low snaps alerts nid p now cfg).2.2 = some a) :
    a.alert_type = "apy_low" := by
  unfold check_apy_low at h
  cases hc : apy_candidate snaps p cfg with
  | none => rw [hc] at h; simp at h
  | some msg =>
    rw [hc] at h
    exact create_alert_created_type alerts nid p "apy_low" "warning" msg
      now a h

lemma any_open_iff (alerts : List ProtocolAlert) (p sev : String) :
    (alerts.any (fun a => a.protocol_name == p && a.severity == sev &&
        a.resolved_at == none) = true) ↔
      ∃ a ∈ alerts, a.protocol_name = p ∧ a.severity = sev ∧
        a.resolved_at = none := by
  simp [List.any_eq_true, and_assoc]

/-- The sequence of backoff sleeps `retry_delay * (attempt + 1)` for
consecutive attempts starting at `a`, `n` sleeps long. -/
def backoffDelays (d : ℚ) (a : Nat) : Nat → List ℚ
  | 0 => []
  | n + 1 => d * ((a : ℚ) + 1) :: backoffDelays d (a + 1) n

lemma backoffDelays_length (d : ℚ) :
    ∀ n a, (backoffDelays d a n).length = n := by
  intro n
  induction n with
  | zero => intro a; rfl
  | succ k ih =>
    intro a
    simp [backoffDelays, ih (a + 1)]

lemma backoffDelays_get (d : ℚ) :
    ∀ n a i (h : i < (backoffDelays d a n).length),
      (backoffDelays d a n).get ⟨i, h⟩ = d * ((a : ℚ) + (i : ℚ) + 1) := by
  intro n
  induction n with
  | zero =>
    intro a i h
    simp [backoffDelays] at h
  | succ k ih =>
    intro a i h
    cases i with
    | zero =>
      simp [backoffDelays]
    | succ j =>
      have hj : j < (backoffDelays d (a + 1) k).length := by
        simpa [backoffDelays] using h
      have := ih (a + 1) j hj
      simp only [backoffDelays, List.get_cons_succ]
      rw [this]
      push_cast
      ring

lemma fetch_tvl_loop_attempts_le (resp : Nat → FetchResp) (m : Nat) (d : ℚ) :
    ∀ fuel attempt,
      (fetch_tvl_loop resp m d attempt fuel).2.1 ≤ attempt + fuel := by
  intro fuel
  induction fuel with
  | zero =>
    intro a
    simp [fetch_tvl_loop]
  | succ f ih =>
    intro a
    have hrec : (fetch_tvl_loop resp m d (a + 1) f).2.1 ≤ a + (f + 1) := by
      have := ih (a + 1)
      omega
    have htriv : a + 1 ≤ a + (f + 1) := by omega
    unfold fetch_tvl_loop
    cases hr : resp a with
    | ok body => cases body <;> simp [htriv]
    | serverError =>
      by_cases hm : a + 1 < m
      · simpa [hm] using hrec
      · simp [hm, htriv]
    | timeout =>
      by_cases hm : a + 1 < m
      · simpa [hm] using hrec
      · simp [hm, htriv]
    | notFound => simp [htriv]
    | otherStatus => simp [htriv]
    | requestError => simp [htriv]

lemma fetch_tvl_loop_transient (resp : Nat → FetchResp) (m : Nat) (d : ℚ)
    (htr : ∀ i, resp i = .serverError ∨ resp i = .timeout) :
    ∀ fuel attempt, attempt + fuel = m → 0 < fuel →
      fetch_tvl_loop resp m d attempt fuel =
        (none, m, backoffDelays d attempt (fuel - 1)) := by
  intro fuel
  induction fuel with
  | zero =>
    intro a _ h0
    exact absurd h0 (by omega)
  | succ f ih =>
    intro a hm _
    unfold fetch_tvl_loop
    rcases Nat.eq_zero_or_pos f with hf | hf
    · subst hf
      have hstop : ¬ a + 1 < m := by omega
      have hm1 : a + 1 = m := by omega
      rcases htr a with hr | hr <;> rw [hr] <;>
        simp [hstop, hm1, backoffDelays]
    · have hstep : a + 1 < m := by omega
      have hrec := ih (a + 1) (by omega) hf
      have hf1 : f - 1 + 1 = f := by omega
      rcases htr a with hr | hr <;> rw [hr] <;>
        simp only [if_pos hstep, hrec] <;>
        rw [show f + 1 - 1 = (f - 1) + 1 by omega] <;>
        rfl

lemma hasOpenAlert_mono (l e : List ProtocolAlert) (p t : String)
    (h : hasOpenAlert l p t = true) : hasOpenAlert (l ++ e) p t = true := by
  rw [hasOpenAlert_append, h, Bool.true_or]

lemma exists_append_trans {l1 l2 l3 : List ProtocolAlert}
    (h1 : ∃ e, l2 = l1 ++ e) (h2 : ∃ e, l3 = l2 ++ e) :
    ∃ e, l3 = l1 ++ e := by
  obtain ⟨e1, rfl⟩ := h1
  obtain ⟨e2, rfl⟩ := h2
  exact ⟨e1 ++ e2, by simp⟩

lemma create_alert_store (alerts : List ProtocolAlert) (nid : Nat)
    (p t sev msg : String) (now : Int) :
    ∃ e, (create_alert alerts nid p t sev msg now).1 = alerts ++ e := by
  by_cases hopen : hasOpenAlert alerts p t
  · rw [create_alert_dup alerts nid p t sev msg now hopen]
    exact ⟨[], by simp⟩
  · rw [create_alert_new alerts nid p t sev msg now (by simpa using hopen)]
    exact ⟨[⟨nid, p, t, sev, msg, now, none⟩], rfl⟩

lemma create_alert_hasOpen (alerts : List ProtocolAlert) (nid : Nat)
    (p t sev msg : String) (now : Int) :
    hasOpenAlert (create_alert alerts nid p t sev msg now).1 p t = true := by
  by_cases hopen : hasOpenAlert alerts p t
  · rw [create_alert_dup alerts nid p t sev msg now hopen]
    exact hopen
  · rw [create_alert_new alerts nid p t sev msg now (by simpa using hopen)]
    simp [hasOpenAlert_append, hasOpenAlert]

lemma check_tvl_drop_store (snaps : List ProtocolSnapshot)
    (alerts : List ProtocolAlert) (nid : Nat) (p : String) (now : Int)
    (cfg : Settings) :
    ∃ e, (check_tvl_drop snaps alerts nid p now cfg).1 = alerts ++ e := by
  unfold check_tvl_drop
  cases hc : tvl_candidate snaps p now cfg with
  | none => exact ⟨[], by simp⟩
  | some msg =>
    exact create_alert_store alerts nid p "tvl_drop" "critical" msg now

lemma check_apy_low_store (snaps : List ProtocolSnapshot)
    (alerts : List ProtocolAlert) (nid : Nat) (p : String) (now : Int)
    (cfg : Settings) :
    ∃ e, (check_apy_low snaps alerts nid p now cfg).1 = alerts ++ e := by
  unfold check_apy_low
  cases hc : apy_candidate snaps p cfg with
  | none => exact ⟨[], by simp⟩
  | some msg =>
    exact create_alert_store alerts nid p "apy_low" "warning" msg now

lemma check_utilization_high_store (snaps : List ProtocolSnapshot)
    (alerts : List ProtocolAlert) (nid : Nat) (p : String) (now : Int)
    (cfg : Settings) :
    ∃ e, (check_utilization_high snaps alerts nid p now cfg).1 =
      alerts ++ e := by
  unfold check_utilization_high
  cases hc : util_candidate snaps p cfg with
  | none => exact ⟨[], by simp⟩
  | some msg =>
    exact create_alert_store alerts nid p "utilization_high" "warning" msg now

lemma check_tvl_drop_covered (snaps : List ProtocolSnapshot)
    (alerts : List ProtocolAlert) (nid : Nat) (p : String) (now : Int)
    (cfg : Settings) (h : (tvl_candidate snaps p now cfg).isSome = true) :
    hasOpenAlert (check_tvl_drop snaps alerts nid p now cfg).1 p
      "tvl_drop" = true := by
  unfold check_tvl_drop
  cases hc : tvl_candidate snaps p now cfg with
  | none => rw [hc] at h; simp at h
  | some msg =>
    exact create_alert_hasOpen alerts nid p "tvl_drop" "critical" msg now

lemma check_apy_low_covered (snaps : List ProtocolSnapshot)
    (alerts : List ProtocolAlert) (nid : Nat) (p : String) (now : Int)
    (cfg : Settings) (h : (apy_candidate snaps p cfg).isSome = true) :
    hasOpenAlert (check_apy_low snaps alerts nid p now cfg).1 p
      "apy_low" = true := by
  unfold check_apy_low
  cases hc : apy_candidate snaps p cfg with
  | none => rw [hc] at h; simp at h
  | some msg =>
    exact create_alert_hasOpen alerts nid p "apy_low" "warning" msg now

lemma check_utilization_high_covered (snaps : List ProtocolSnapshot)
    (alerts : List ProtocolAlert) (nid : Nat) (p : String) (now : Int)
    (cfg : Settings) (h : (util_candidate snaps p cfg).isSome = true) :
    hasOpenAlert (check_utilization_high snaps alerts nid p now cfg).1 p
      "utilization_high" = true := by
  unfold check_utilization_high
  cases hc : util_candidate snaps p cfg with
  | none => rw [hc] at h; simp at h
  | some msg =>
    exact create_alert_hasOpen alerts nid p "utilization_high" "warning" msg now

lemma check_tvl_drop_noop (snaps : List ProtocolSnapshot)
    (alerts : List ProtocolAlert) (nid : Nat) (p : String) (now : Int)
    (cfg : Settings)
    (h : (tvl_candidate snaps p now cfg).isSome = true →
      hasOpenAlert alerts p "tvl_drop" = true) :
    check_tvl_drop snaps alerts nid p now cfg = (alerts, nid, none) := by
  unfold check_tvl_drop
  cases hc : tvl_candidate snaps p now cfg with
  | none => rfl
  | some msg =>
    exact create_alert_dup alerts nid p "tvl_drop" "critical" msg now
      (h (by rw [hc]; rfl))

lemma check_apy_low_noop (snaps : List ProtocolSnapshot)
    (alerts : List ProtocolAlert) (nid : Nat) (p : String) (now : Int)
    (cfg : Settings)
    (h : (apy_candidate snaps p cfg).isSome = true →
      hasOpenAlert alerts p "apy_low" = true) :
    check_apy_low snaps alerts nid p now cfg = (alerts, nid, none) := by
  unfold check_apy_low
  cases hc : apy_candidate snaps p cfg with
  | none => rfl
  | some msg =>
    exact create_alert_dup alerts nid p "apy_low" "warning" msg now
      (h (by rw [hc]; rfl))

lemma check_utilization_high_noop (snaps : List ProtocolSnapshot)
    (alerts : List ProtocolAlert) (nid : Nat) (p : String) (now : Int)
    (cfg : Settings)
    (h : (util_candidate snaps p cfg).isSome = true →
      hasOpenAlert alerts p "utilization_high" = true) :
    check_utilization_high snaps alerts nid p now cfg =
      (alerts, nid, none) := by
  unfold check_utilization_high
  cases hc : util_candidate snaps p cfg with
  | none => rfl
  | some msg =>
    exact create_alert_dup alerts nid p "utilization_high" "warning" msg now
      (h (by rw [hc]; rfl))

lemma Covered_mono (snaps : List ProtocolSnapshot)
    (alerts e : List ProtocolAlert) (p : String) (now : Int) (cfg : Settings)
    (h : Covered snaps alerts p now cfg) :
    Covered snaps (alerts ++ e) p now cfg :=
  ⟨fun hc => hasOpenAlert_mono _ _ _ _ (h.1 hc),
   fun hc => hasOpenAlert_mono _ _ _ _ (h.2.1 hc),
   fun hl hc => hasOpenAlert_mono _ _ _ _ (h.2.2 hl hc)⟩

lemma countOpen_append (l e : List ProtocolAlert) (p t : String) :
    countOpen (l ++ e) p t = countOpen l p t + countOpen e p t := by
  simp [countOpen, List.filter_append]

lemma countOpen_zero_of_not_open (l : List ProtocolAlert) (p t : String)
    (h : hasOpenAlert l p t = false) : countOpen l p t = 0 := by
  unfold countOpen
  rw [List.length_eq_zero, List.filter_eq_nil_iff]
  intro a ha hc
  have : hasOpenAlert l p t = true := by
    unfold hasOpenAlert
    rw [List.any_eq_true]
    exact ⟨a, ha, hc⟩
  rw [h] at this
  exact Bool.false_ne_true this

lemma create_alert_AMO (alerts : List ProtocolAlert) (nid : Nat)
    (p t sev msg : String) (now : Int) (h : AtMostOneOpen alerts) :
    AtMostOneOpen (create_alert alerts nid p t sev msg now).1 := by
  by_cases hopen : hasOpenAlert alerts p t
  · rw [create_alert_dup alerts nid p t sev msg now hopen]
    exact h
  · have hfst : (create_alert alerts nid p t sev msg now).1 =
        alerts ++ [⟨nid, p, t, sev, msg, now, none⟩] := by
      rw [create_alert_new alerts nid p t sev msg now (by simpa using hopen)]
    rw [hfst]
    intro p' t'
    rw [countOpen_append]
    by_cases hpt : p' = p ∧ t' = t
    · obtain ⟨rfl, rfl⟩ := hpt
      rw [countOpen_zero_of_not_open alerts p' t' (by simpa using hopen)]
      simp [countOpen]
    · have hz : countOpen
          [(⟨nid, p, t, sev, msg, now, none⟩ : ProtocolAlert)] p' t' = 0 := by
        unfold countOpen
        rw [List.length_eq_zero, List.filter_eq_nil_iff]
        intro a ha hc
        simp only [List.mem_singleton] at ha
        subst ha
        simp only [Bool.and_eq_true, beq_iff_eq] at hc
        exact hpt ⟨hc.1.1.symm, hc.1.2.symm⟩
      rw [hz]
      have := h p' t'
      omega

lemma check_tvl_drop_AMO (snaps : List ProtocolSnapshot)
    (alerts : List ProtocolAlert) (nid : Nat) (p : String) (now : Int)
    (cfg : Settings) (h : AtMostOneOpen alerts) :
    AtMostOneOpen (check_tvl_drop snaps alerts nid p now cfg).1 := by
  unfold check_tvl_drop
  cases hc : tvl_candidate snaps p now cfg with
  | none => exact h
  | some msg =>
    exact create_alert_AMO alerts nid p "tvl_drop" "critical" msg now h

lemma check_apy_low_AMO (snaps : List ProtocolSnapshot)
    (alerts : List ProtocolAlert) (nid : Nat) (p : String) (now : Int)
    (cfg : Settings) (h : AtMostOneOpen alerts) :
    AtMostOneOpen (check_apy_low snaps alerts nid p now cfg).1 := by
  unfold check_apy_low
  cases hc : apy_candidate snaps p cfg with
  | none => exact h
  | some msg =>
    exact create_alert_AMO alerts nid p "apy_low" "warning" msg now h

lemma check_utilization_high_AMO (snaps : List ProtocolSnapshot)
    (alerts : List ProtocolAlert) (nid : Nat) (p : String) (now : Int)
    (cfg : Settings) (h : AtMostOneOpen alerts) :
    AtMostOneOpen (check_utilization_high snaps alerts nid p now cfg).1 := by
  unfold check_utilization_high
  cases hc : util_candidate snaps p cfg with
  | none => exact h
  | some msg =>
    exact create_alert_AMO alerts nid p "utilization_high" "warning" msg now h

lemma detect_protocol_AMO (snaps : List ProtocolSnapshot)
    (alerts : List ProtocolAlert) (nid : Nat) (p : String) (now : Int)
    (cfg : Settings) (h : AtMostOneOpen alerts) :
    AtMostOneOpen (detect_protocol snaps alerts nid p now cfg).1 := by
  have h1 := check_tvl_drop_AMO snaps alerts nid p now cfg h
  have h2 := check_apy_low_AMO snaps
    (check_tvl_drop snaps alerts nid p now cfg).1
    (check_tvl_drop snaps alerts nid p now cfg).2.1 p now cfg h1
  by_cases hl : LENDING_PROTOCOLS.contains p <;>
    simp only [detect_protocol, hl, if_true, if_false, Bool.false_eq_true]
  · exact check_utilization_high_AMO snaps _ _ p now cfg h2
  · exact h2

lemma detect_protocol_store (snaps : List ProtocolSnapshot)
    (alerts : List ProtocolAlert) (nid : Nat) (p : String) (now : Int)
    (cfg : Settings) :
    ∃ e, (detect_protocol snaps alerts nid p now cfg).1 = alerts ++ e := by
  have h1 := check_tvl_drop_store snaps alerts nid p now cfg
  have h2 := exists_append_trans h1 (check_apy_low_store snaps
    (check_tvl_drop snaps alerts nid p now cfg).1
    (check_tvl_drop snaps alerts nid p now cfg).2.1 p now cfg)
  by_cases hl : LENDING_PROTOCOLS.contains p <;>
    simp only [detect_protocol, hl, if_true, if_false, Bool.false_eq_true]
  · exact exists_append_trans h2 (check_utilization_high_store snaps _ _
      p now cfg)
  · exact h2

lemma detect_protocol_covered (snaps : List ProtocolSnapshot)
    (alerts : List ProtocolAlert) (nid : Nat) (p : String) (now : Int)
    (cfg : Settings) :
    Covered snaps (detect_protocol snaps alerts nid p now cfg).1 p now
      cfg := by
  by_cases hl : LENDING_PROTOCOLS.contains p <;>
    simp only [detect_protocol, hl, if_true, if_false, Bool.false_eq_true] <;>
    refine ⟨fun hc => ?_, fun hc => ?_, fun hlp hc => ?_⟩
  · obtain ⟨e2, he2⟩ := check_apy_low_store snaps
      (check_tvl_drop snaps alerts nid p now cfg).1
      (check_tvl_drop snaps alerts nid p now cfg).2.1 p now cfg
    obtain ⟨e3, he3⟩ := check_utilization_high_store snaps
      (check_apy_low snaps (check_tvl_drop snaps alerts nid p now cfg).1
        (check_tvl_drop snaps alerts nid p now cfg).2.1 p now cfg).1
      (check_apy_low snaps (check_tvl_drop snaps alerts nid p now cfg).1
        (check_tvl_drop snaps alerts nid p now cfg).2.1 p now cfg).2.1
      p now cfg
    rw [he3, he2]
    exact hasOpenAlert_mono _ _ _ _ (hasOpenAlert_mono _ _ _ _
      (check_tvl_drop_covered snaps alerts nid p now cfg hc))
  · obtain ⟨e3, he3⟩ := check_utilization_high_store snaps
      (check_apy_low snaps (check_tvl_drop snaps alerts nid p now cfg).1
        (check_tvl_drop snaps alerts nid p now cfg).2.1 p now cfg).1
      (check_apy_low snaps (check_tvl_drop snaps alerts nid p now cfg).1
        (check_tvl_drop snaps alerts nid p now cfg).2.1 p now cfg).2.1
      p now cfg
    rw [he3]
    exact hasOpenAlert_mono _ _ _ _ (check_apy_low_covered snaps _ _ p now
      cfg hc)
  · exact check_utilization_high_covered snaps _ _ p now cfg hc
  · obtain ⟨e2, he2⟩ := check_apy_low_store snaps
      (check_tvl_drop snaps alerts nid p now cfg).1
      (check_tvl_drop snaps alerts nid p now cfg).2.1 p now cfg
    rw [he2]
    exact hasOpenAlert_mono _ _ _ _
      (check_tvl_drop_covered snaps alerts nid p now cfg hc)
  · exact check_apy_low_covered snaps _ _ p now cfg hc
  · exact absurd hlp hl

lemma detect_protocol_noop (snaps : List ProtocolSnapshot)
    (alerts : List ProtocolAlert) (nid : Nat) (p : String) (now : Int)
    (cfg : Settings) (h : Covered snaps alerts p now cfg) :
    detect_protocol snaps alerts nid p now cfg = (alerts, nid, []) := by
  obtain ⟨h1, h2, h3⟩ := h
  have e1 := check_tvl_drop_noop snaps alerts nid p now cfg h1
  have e2 := check_apy_low_noop snaps alerts nid p now cfg h2
  by_cases hl : LENDING_PROTOCOLS.contains p
  · have e3 := check_utilization_high_noop snaps alerts nid p now cfg (h3 hl)
    simp [detect_protocol, hl, e1, e2, e3]
  · have hl' : p ∉ LENDING_PROTOCOLS := by simpa using hl
    simp [detect_protocol, hl, hl', e1, e2]

lemma detect_list_AMO (snaps : List ProtocolSnapshot) (now : Int)
    (cfg : Settings) (ps : List String) :
    ∀ alerts nid, AtMostOneOpen alerts →
      AtMostOneOpen (detect_list snaps alerts nid ps now cfg).1 := by
  induction ps with
  | nil => exact fun alerts nid h => h
  | cons p rest ih =>
    intro alerts nid h
    unfold detect_list
    exact ih (detect_protocol snaps alerts nid p now cfg).1
      (detect_protocol snaps alerts nid p now cfg).2.1
      (detect_protocol_AMO snaps alerts nid p now cfg h)

lemma detect_list_store (snaps : List ProtocolSnapshot) (now : Int)
    (cfg : Settings) (ps : List String) :
    ∀ alerts nid, ∃ e,
      (detect_list snaps alerts nid ps now cfg).1 = alerts ++ e := by
  induction ps with
  | nil => exact fun alerts nid => ⟨[], by simp [detect_list]⟩
  | cons p rest ih =>
    intro alerts nid
    unfold detect_list
    exact exists_append_trans (detect_protocol_store snaps alerts nid p now
        cfg)
      (ih (detect_protocol snaps alerts nid p now cfg).1
        (detect_protocol snaps alerts nid p now cfg).2.1)

lemma detect_list_covered (snaps : List ProtocolSnapshot) (now : Int)
    (cfg : Settings) (ps : List String) :
    ∀ alerts nid p, p ∈ ps →
      Covered snaps (detect_list snaps alerts nid ps now cfg).1 p now
        cfg := by
  induction ps with
  | nil =>
    intro alerts nid p hp
    cases hp
  | cons q rest ih =>
    intro alerts nid p hp
    unfold detect_list
    rcases List.mem_cons.mp hp with rfl | hp
    · obtain ⟨e, he⟩ := detect_list_store snaps now cfg rest
        (detect_protocol snaps alerts nid p now cfg).1
        (detect_protocol snaps alerts nid p now cfg).2.1
      have := Covered_mono snaps
        (detect_protocol snaps alerts nid p now cfg).1 e p now cfg
        (detect_protocol_covered snaps alerts nid p now cfg)
      rw [← he] at this
      exact this
    · exact ih (detect_protocol snaps alerts nid q now cfg).1
        (detect_protocol snaps alerts nid q now cfg).2.1 p hp

lemma detect_list_noop (snaps : List ProtocolSnapshot) (now : Int)
    (cfg : Settings) (ps : List String) :
    ∀ alerts nid, (∀ p ∈ ps, Covered snaps alerts p now cfg) →
      detect_list snaps alerts nid ps now cfg = (alerts, nid, []) := by
  induction ps with
  | nil => exact fun alerts nid _ => rfl
  | cons q rest ih =>
    intro alerts nid h
    have hq := detect_protocol_noop snaps alerts nid q now cfg
      (h q (by simp))
    have hrest := ih alerts nid (fun p hp => h p (by simp [hp]))
    simp [detect_list, hq, hrest]

/-! ## Claim theorems -/

/-- C1: the dedup contract of `_create_alert` — a candidate matching an
existing open (protocol, kind) alert is discarded with the store (hence
the existing alert's message and triggered_at) unchanged; a detection pass
preserves the at-most-one-open-alert-per-(protocol, kind) invariant; and a
second pass over unchanged samples and alert state changes nothing and
returns an empty alert list. -/
theorem C1_dedup_invariant (snaps : List ProtocolSnapshot)
    (alerts : List ProtocolAlert) (nextId : Nat) (now : Int)
    (cfg : Settings) :
    (∀ p t sev msg n, hasOpenAlert alerts p t = true →
      create_alert alerts n p t sev msg now = (alerts, n, none)) ∧
    (AtMostOneOpen alerts →
      AtMostOneOpen (detect_all snaps alerts nextId now cfg).1) ∧
    detect_all snaps (detect_all snaps alerts nextId now cfg).1
        (detect_all snaps alerts nextId now cfg).2.1 now cfg =
      ((detect_all snaps alerts nextId now cfg).1,
        (detect_all snaps alerts nextId now cfg).2.1, []) := by
  refine ⟨fun p t sev msg n h => create_alert_dup alerts n p t sev msg now h,
    fun h => detect_list_AMO snaps now cfg (activeProtocols snaps now)
      alerts nextId h, ?_⟩
  unfold detect_all
  exact detect_list_noop snaps now cfg (activeProtocols snaps now)
    (detect_list snaps alerts nextId (activeProtocols snaps now) now cfg).1
    (detect_list snaps alerts nextId (activeProtocols snaps now) now
      cfg).2.1
    (fun p hp => detect_list_covered snaps now cfg
      (activeProtocols snaps now) alerts nextId p hp)

/-- C1 witness: a duplicate `tvl_drop` candidate against `c1Alerts` is
discarded, and the double pass over `c1Snaps` (one APY-low protocol). -/
theorem C1_dedup_invariant_witness :
    create_alert c1Alerts 5 "p" "tvl_drop" "critical" "m2" 9 =
      (c1Alerts, 5, none) ∧
    AtMostOneOpen (detect_all c1Snaps [] 0 0 settings).1 ∧
    detect_all c1Snaps (detect_all c1Snaps [] 0 0 settings).1
        (detect_all c1Snaps [] 0 0 settings).2.1 0 settings =
      ((detect_all c1Snaps [] 0 0 settings).1,
        (detect_all c1Snaps [] 0 0 settings).2.1, []) := by
  have h1 := (C1_dedup_invariant c1Snaps c1Alerts 0 9 settings).1
    "p" "tvl_drop" "critical" "m2" 5 (by decide)
  have h2 := C1_dedup_invariant c1Snaps [] 0 0 settings
  exact ⟨h1, h2.2.1 (fun p t => Nat.zero_le 1), h2.2.2⟩

/-- C5: sample insertion is idempotent on the (protocol, timestamp) key —
a second `_store_snapshot` for the same pair changes nothing and returns
success, and starting from a store without the key, exactly one row with
that key is stored afterwards. -/
theorem C5_insert_idempotent (snaps : List ProtocolSnapshot) (p : String)
    (ts : Int) (tvl apy util tvl2 apy2 util2 : Option ℚ) :
    (store_snapshot (store_snapshot snaps p ts tvl apy util).1 p ts
        tvl2 apy2 util2 =
      ((store_snapshot snaps p ts tvl apy util).1, true)) ∧
    (hasSnapshotKey snaps p ts = false →
      ((store_snapshot snaps p ts tvl apy util).1.filter (fun s =>
        s.protocol_name == p && s.timestamp == ts)).length = 1) := by
  constructor
  · exact store_snapshot_dup _ p ts tvl2 apy2 util2
      (store_snapshot_hasKey snaps p ts tvl apy util)
  · intro h
    have hnil : snaps.filter (fun s =>
        s.protocol_name == p && s.timestamp == ts) = [] := by
      rw [List.filter_eq_nil_iff]
      intro a ha hcontra
      have : hasSnapshotKey snaps p ts = true := by
        unfold hasSnapshotKey
        rw [List.any_eq_true]
        exact ⟨a, ha, hcontra⟩
      rw [h] at this
      exact Bool.false_ne_true this
    rw [store_snapshot_new snaps p ts tvl apy util h]
    simp [List.filter_append, hnil]

/-- C5 witness: concrete double insert of the same (protocol, timestamp). -/
theorem C5_insert_idempotent_witness :
    (store_snapshot
        (store_snapshot [] "felix" 0 (some 5) none none).1 "felix" 0
        (some 7) none none =
      ((store_snapshot [] "felix" 0 (some 5) none none).1, true)) ∧
    ((store_snapshot [] "felix" 0 (some 5) none none).1.filter (fun s =>
        s.protocol_name == "felix" && s.timestamp == 0)).length = 1 := by
  have h := C5_insert_idempotent [] "felix" 0 (some 5) none none
    (some 7) none none
  exact ⟨h.1, h.2 (by decide)⟩

/-- C10: storing a snapshot with `tvl_usd = None` and no key conflict
commits the row yet reports failure (the success log crashes formatting
`None` after the commit), and the ingestion tally counts it as failed. -/
theorem C10_none_tvl_commits_but_fails (snaps : List ProtocolSnapshot)
    (p : String) (ts : Int) (apy util : Option ℚ)
    (h : hasSnapshotKey snaps p ts = false) :
    store_snapshot snaps p ts none apy util =
      (snaps ++ [⟨p, ts, none, normalizeMetric apy, normalizeMetric util⟩],
        false) ∧
    ∀ outcomes : List Bool,
      (count_outcomes
          (outcomes ++ [(store_snapshot snaps p ts none apy util).2])).2 =
        (count_outcomes outcomes).2 + 1 := by
  have h1 : store_snapshot snaps p ts none apy util =
      (snaps ++ [⟨p, ts, none, normalizeMetric apy, normalizeMetric util⟩],
        false) := by
    rw [store_snapshot_new snaps p ts none apy util h]
    rfl
  refine ⟨h1, fun outcomes => ?_⟩
  rw [h1]
  unfold count_outcomes
  rw [List.foldl_append]
  simp

/-- C10 witness: concrete store with `tvl_usd = None` into an empty table. -/
theorem C10_none_tvl_commits_but_fails_witness :
    store_snapshot [] "hlp" 3 none (some 5) none =
      ([⟨"hlp", 3, none, some 5, none⟩], false) ∧
    (count_outcomes ([true] ++ [(store_snapshot [] "hlp" 3 none (some 5) none).2])).2 =
      (count_outcomes [true]).2 + 1 := by
  have h := C10_none_tvl_commits_but_fails [] "hlp" 3 (some 5) none (by decide)
  exact ⟨h.1, h.2 [true]⟩

/-- C6: the status projection returns "critical" exactly when an open
critical alert for the protocol exists, "warning" exactly when none does
but an open warning alert exists, and "healthy" exactly when neither does;
one open critical plus one open warning gives "critical", and only
resolved alerts give "healthy". -/
theorem C6_status_projection (alerts : List ProtocolAlert) (p : String) :
    (get_protocol_status alerts p = "critical" ↔
      ∃ a ∈ alerts, a.protocol_name = p ∧ a.severity = "critical" ∧
        a.resolved_at = none) ∧
    (get_protocol_status alerts p = "warning" ↔
      (¬ ∃ a ∈ alerts, a.protocol_name = p ∧ a.severity = "critical" ∧
        a.resolved_at = none) ∧
      ∃ a ∈ alerts, a.protocol_name = p ∧ a.severity = "warning" ∧
        a.resolved_at = none) ∧
    (get_protocol_status alerts p = "healthy" ↔
      (¬ ∃ a ∈ alerts, a.protocol_name = p ∧ a.severity = "critical" ∧
        a.resolved_at = none) ∧
      ¬ ∃ a ∈ alerts, a.protocol_name = p ∧ a.severity = "warning" ∧
        a.resolved_at = none) ∧
    (get_protocol_status
      [⟨0, p, "tvl_drop", "critical", "m", 0, none⟩,
       ⟨1, p, "apy_low", "warning", "m", 0, none⟩] p = "critical") ∧
    ((∀ a ∈ alerts, a.resolved_at ≠ none) →
      get_protocol_status alerts p = "healthy") := by
  have hcrit := any_open_iff alerts p "critical"
  have hwarn := any_open_iff alerts p "warning"
  have hex : get_protocol_status
      [⟨0, p, "tvl_drop", "critical", "m", 0, none⟩,
       ⟨1, p, "apy_low", "warning", "m", 0, none⟩] p = "critical" := by
    simp [get_protocol_status]
  have hres : (∀ a ∈ alerts, a.resolved_at ≠ none) →
      get_protocol_status alerts p = "healthy" := by
    intro h
    have hC : alerts.any (fun a => a.protocol_name == p &&
        a.severity == "critical" && a.resolved_at == none) = false := by
      rw [List.any_eq_false]
      intro a ha hc
      simp only [Bool.and_eq_true, beq_iff_eq] at hc
      exact h a ha hc.2
    have hW : alerts.any (fun a => a.protocol_name == p &&
        a.severity == "warning" && a.resolved_at == none) = false := by
      rw [List.any_eq_false]
      intro a ha hc
      simp only [Bool.and_eq_true, beq_iff_eq] at hc
      exact h a ha hc.2
    unfold get_protocol_status
    rw [hC, hW]
    rfl
  have d1 : ("warning" : String) ≠ "critical" := by decide
  have d2 : ("healthy" : String) ≠ "critical" := by decide
  have d3 : ("critical" : String) ≠ "warning" := by decide
  have d4 : ("healthy" : String) ≠ "warning" := by decide
  have d5 : ("critical" : String) ≠ "healthy" := by decide
  have d6 : ("warning" : String) ≠ "healthy" := by decide
  refine ⟨?_, ?_, ?_, hex, hres⟩ <;>
    · unfold get_protocol_status
      cases hC : alerts.any (fun a => a.protocol_name == p &&
          a.severity == "critical" && a.resolved_at == none) <;>
        cases hW : alerts.any (fun a => a.protocol_name == p &&
            a.severity == "warning" && a.resolved_at == none) <;>
        rw [hC] at hcrit <;> rw [hW] at hwarn <;>
        simp_all

/-- C4: resolving an unknown alert id is rejected not-found; resolving an
already-resolved alert is rejected as a conflict with no change; resolving
an open alert sets `resolved_at = now`, changes nothing else (same length,
every other row kept, the target row keeps all its other fields), and a
second resolve of the same alert conflicts instead of overwriting. -/
theorem C4_resolve_alert (alerts : List ProtocolAlert) (alert_id : Nat)
    (now now2 : Int) :
    (alerts.find? (fun a => a.id == alert_id) = none →
      resolve_alert alerts alert_id now = .notFound) ∧
    (∀ a, alerts.find? (fun a => a.id == alert_id) = some a →
      a.resolved_at ≠ none →
      resolve_alert alerts alert_id now = .alreadyResolved) ∧
    (∀ a, alerts.find? (fun a => a.id == alert_id) = some a →
      a.resolved_at = none →
      ∃ alerts',
        resolve_alert alerts alert_id now =
          .ok alerts' { a with resolved_at := some now } ∧
        alerts'.length = alerts.length ∧
        (∀ b ∈ alerts, b.id ≠ alert_id → b ∈ alerts') ∧
        { a with resolved_at := some now } ∈ alerts' ∧
        resolve_alert alerts' alert_id now2 = .alreadyResolved) := by
  refine ⟨?_, ?_, ?_⟩
  · intro h
    unfold resolve_alert
    rw [h]
  · intro a h hres
    unfold resolve_alert
    rw [h]
    simp [Option.isSome_iff_ne_none, hres]
  · intro a h hres
    have hid : a.id = alert_id := by
      have := List.find?_some h
      simpa using this
    have hmem : a ∈ alerts := List.mem_of_find?_eq_some h
    refine ⟨alerts.map (fun b =>
      if b.id == alert_id then { a with resolved_at := some now } else b),
      ?_, ?_, ?_, ?_, ?_⟩
    · unfold resolve_alert
      rw [h]
      simp [hres]
    · exact List.length_map _ _
    · intro b hb hbid
      exact List.mem_map.mpr ⟨b, hb, by simp [hbid]⟩
    · exact List.mem_map.mpr ⟨a, hmem, by simp [hid]⟩
    · unfold resolve_alert
      have hpred : (fun b : ProtocolAlert => b.id == alert_id) ∘
          (fun b => if b.id == alert_id then
            { a with resolved_at := some now } else b) =
          fun b : ProtocolAlert => b.id == alert_id := by
        funext b
        by_cases hb : b.id = alert_id <;> simp [hb, hid]
      rw [List.find?_map, hpred, h]
      simp [hid]

/-- C4 witness: a concrete three-way scenario — missing id, conflicting
re-resolve, and a successful first resolve. -/
theorem C4_resolve_alert_witness :
    resolve_alert [⟨1, "felix", "apy_low", "warning", "m", 5, none⟩] 2 9 =
      .notFound ∧
    resolve_alert [⟨1, "felix", "apy_low", "warning", "m", 5, some 7⟩] 1 9 =
      .alreadyResolved ∧
    ∃ alerts',
      resolve_alert [⟨1, "felix", "apy_low", "warning", "m", 5, none⟩] 1 9 =
        .ok alerts' ⟨1, "felix", "apy_low", "warning", "m", 5, some 9⟩ ∧
      alerts'.length = 1 ∧
      ⟨1, "felix", "apy_low", "warning", "m", 5, some 9⟩ ∈ alerts' ∧
      resolve_alert alerts' 1 11 = .alreadyResolved := by
  refine ⟨(C4_resolve_alert
      [⟨1, "felix", "apy_low", "warning", "m", 5, none⟩] 2 9 11).1 (by decide),
    (C4_resolve_alert
      [⟨1, "felix", "apy_low", "warning", "m", 5, some 7⟩] 1 9 11).2.1
      ⟨1, "felix", "apy_low", "warning", "m", 5, some 7⟩ (by decide)
      (by decide), ?_⟩
  obtain ⟨alerts', h1, h2, _, h4, h5⟩ := (C4_resolve_alert
      [⟨1, "felix", "apy_low", "warning", "m", 5, none⟩] 1 9 11).2.2
      ⟨1, "felix", "apy_low", "warning", "m", 5, none⟩ (by decide) rfl
  exact ⟨alerts', h1, h2, h4, h5⟩

/-- C9: a metric of exactly 0 is treated as absent — storing 0 persists
NULL (though the insert is reported a success when TVL is nonzero or the
key conflicts), and a most-recent sample whose TVL, APY, or utilization is
0 makes the corresponding rule skip exactly as when the field is NULL. -/
theorem C9_zero_is_missing (snaps : List ProtocolSnapshot)
    (alerts : List ProtocolAlert) (nextId : Nat) (p : String) (ts now : Int)
    (cfg : Settings) (l : ProtocolSnapshot) :
    (hasSnapshotKey snaps p ts = false →
      store_snapshot snaps p ts (some 0) (some 0) (some 0) =
        (snaps ++ [⟨p, ts, none, none, none⟩], true)) ∧
    (latestSnapshot snaps p = some l →
      ((l.tvl_usd = some 0 ∨ l.tvl_usd = none) →
        check_tvl_drop snaps alerts nextId p now cfg =
          (alerts, nextId, none)) ∧
      ((l.apy_7d = some 0 ∨ l.apy_7d = none) →
        check_apy_low snaps alerts nextId p now cfg =
          (alerts, nextId, none)) ∧
      ((l.utilization_rate = some 0 ∨ l.utilization_rate = none) →
        check_utilization_high snaps alerts nextId p now cfg =
          (alerts, nextId, none))) := by
  constructor
  · intro h
    rw [store_snapshot_new snaps p ts (some 0) (some 0) (some 0) h]
    rfl
  · intro hl
    refine ⟨?_, ?_, ?_⟩
    · intro h0
      unfold check_tvl_drop tvl_candidate
      rw [hl]
      rcases h0 with h0 | h0 <;> simp [h0, isFalsy]
    · intro h0
      unfold check_apy_low apy_candidate
      rw [hl]
      rcases h0 with h0 | h0 <;> simp [h0, isFalsy]
    · intro h0
      unfold check_utilization_high util_candidate
      rw [hl]
      rcases h0 with h0 | h0 <;> simp [h0, isFalsy]

/-- C8: every fetch terminates after at most `API_RETRY_ATTEMPTS` attempts;
a non-transient first outcome (404 or malformed 200 payload) fails after
one attempt with no retry; all-transient outcomes (5xx / timeout) make the
fetch fail after exactly the configured attempt bound, with the i-th
backoff delay equal to base delay × attempt number (i + 1). -/
theorem C8_fetch_retry_bounded (resp : Nat → FetchResp) (cfg : Settings) :
    ((fetch_tvl resp cfg).2.1 ≤ cfg.API_RETRY_ATTEMPTS) ∧
    (0 < cfg.API_RETRY_ATTEMPTS →
      (resp 0 = .notFound ∨ resp 0 = .ok none) →
      fetch_tvl resp cfg = (none, 1, [])) ∧
    ((∀ i, resp i = .serverError ∨ resp i = .timeout) →
      0 < cfg.API_RETRY_ATTEMPTS →
      (fetch_tvl resp cfg).1 = none ∧
      (fetch_tvl resp cfg).2.1 = cfg.API_RETRY_ATTEMPTS ∧
      (fetch_tvl resp cfg).2.2.length = cfg.API_RETRY_ATTEMPTS - 1 ∧
      ∀ i (h : i < (fetch_tvl resp cfg).2.2.length),
        (fetch_tvl resp cfg).2.2.get ⟨i, h⟩ =
          cfg.API_RETRY_DELAY_SECONDS * ((i : ℚ) + 1)) := by
  refine ⟨?_, ?_, ?_⟩
  · have h := fetch_tvl_loop_attempts_le resp cfg.API_RETRY_ATTEMPTS
      cfg.API_RETRY_DELAY_SECONDS cfg.API_RETRY_ATTEMPTS 0
    unfold fetch_tvl
    omega
  · intro hpos hfirst
    obtain ⟨k, hk⟩ := Nat.exists_eq_succ_of_ne_zero (Nat.pos_iff_ne_zero.mp hpos)
    unfold fetch_tvl
    rw [hk]
    rcases hfirst with h0 | h0 <;>
      · unfold fetch_tvl_loop
        rw [h0]
  · intro htr hpos
    have h := fetch_tvl_loop_transient resp cfg.API_RETRY_ATTEMPTS
      cfg.API_RETRY_DELAY_SECONDS htr cfg.API_RETRY_ATTEMPTS 0 (by omega) hpos
    unfold fetch_tvl
    rw [h]
    refine ⟨rfl, rfl, backoffDelays_length _ _ _, ?_⟩
    intro i hi
    rw [backoffDelays_get]
    push_cast
    ring

/-- C8 witness: a 404 on the first attempt fails fast with the default
3-attempt bound; an all-5xx run fails after exactly 3 attempts with two
delays 1×1 and 1×2. -/
theorem C8_fetch_retry_bounded_witness :
    (fetch_tvl (fun _ => FetchResp.notFound) settings).2.1 ≤
      settings.API_RETRY_ATTEMPTS ∧
    fetch_tvl (fun _ => FetchResp.notFound) settings = (none, 1, []) ∧
    (fetch_tvl (fun _ => FetchResp.serverError) settings).1 = none ∧
    (fetch_tvl (fun _ => FetchResp.serverError) settings).2.1 =
      settings.API_RETRY_ATTEMPTS ∧
    (fetch_tvl (fun _ => FetchResp.serverError) settings).2.2.length =
      settings.API_RETRY_ATTEMPTS - 1 := by
  have h1 := C8_fetch_retry_bounded (fun _ => FetchResp.notFound) settings
  have h2 := C8_fetch_retry_bounded (fun _ => FetchResp.serverError) settings
  obtain ⟨h3, h4, h5, _⟩ := h2.2.2 (fun i => Or.inl rfl) (by decide)
  exact ⟨h1.1, h1.2.1 (by decide) (Or.inl rfl), h3, h4, h5⟩

/-- C2 counterexample: the claim says `latest` is the most recent sample
with a non-null TVL, so on `nullLatestTvlSnaps` (latest-with-TVL $50M, old
$100M, a 50% drop) it predicts a critical alert; the code takes the most
recent sample overall, whose TVL is NULL, and creates none. -/
theorem C2_latest_selection_counterexample :
    tvl_candidate_spec nullLatestTvlSnaps "p" 100000 settings = true ∧
    check_tvl_drop nullLatestTvlSnaps [] 0 "p" 100000 settings =
      ([], 0, none) := by
  constructor
  · norm_num [tvl_candidate_spec, latestWithField, nullLatestTvlSnaps,
      settings, moreRecent, List.filter]
  · norm_num [check_tvl_drop, tvl_candidate, latestSnapshot,
      latestSnapshotAtOrBefore, nullLatestTvlSnaps, settings, moreRecent,
      List.filter, isFalsy]

/-- C2 amended: `latest` is the most recent sample of the protocol
regardless of fields (skip if its TVL is null or 0), `old` the most recent
sample at or before `now - lookback` (skip if its TVL is null or 0); the
rule fires iff `(old − latest)/old > 0.20`, creating a critical `tvl_drop`
alert; $100M→$50M fires critical, $100M→$85M does not. -/
theorem C2_tvl_drop_amended (snaps : List ProtocolSnapshot) (p : String)
    (now : Int) (cfg : Settings) :
    ((tvl_candidate snaps p now cfg).isSome = true ↔
      ∃ l o lv ov, latestSnapshot snaps p = some l ∧
        latestSnapshotAtOrBefore snaps p
          (now - cfg.TVL_LOOKBACK_HOURS * 3600) = some o ∧
        l.tvl_usd = some lv ∧ o.tvl_usd = some ov ∧ lv ≠ 0 ∧ ov ≠ 0 ∧
        (ov - lv) / ov > cfg.TVL_DROP_THRESHOLD) ∧
    (∀ msg alerts nextId, tvl_candidate snaps p now cfg = some msg →
      hasOpenAlert alerts p "tvl_drop" = false →
      check_tvl_drop snaps alerts nextId p now cfg =
        (alerts ++ [⟨nextId, p, "tvl_drop", "critical", msg, now, none⟩],
          nextId + 1,
          some ⟨nextId, p, "tvl_drop", "critical", msg, now, none⟩)) ∧
    ((check_tvl_drop drop50Snaps [] 0 "p" 90000 settings).2.2.map
      (fun a => (a.alert_type, a.severity)) =
        some ("tvl_drop", "critical")) ∧
    check_tvl_drop drop15Snaps [] 0 "p" 90000 settings = ([], 0, none) := by
  refine ⟨?_, ?_,
    by norm_num [check_tvl_drop, tvl_candidate, latestSnapshot,
      latestSnapshotAtOrBefore, drop50Snaps, settings, moreRecent,
      List.filter, isFalsy, create_alert, hasOpenAlert],
    by norm_num [check_tvl_drop, tvl_candidate, latestSnapshot,
      latestSnapshotAtOrBefore, drop15Snaps, settings, moreRecent,
      List.filter, isFalsy]⟩
  · constructor
    · intro h
      unfold tvl_candidate at h
      cases hl : latestSnapshot snaps p with
      | none => rw [hl] at h; simp at h
      | some l =>
        rw [hl] at h
        cases hlt : l.tvl_usd with
        | none => simp [hlt, isFalsy] at h
        | some lv =>
          by_cases hlv : lv = 0
          · simp [hlt, hlv, isFalsy] at h
          · cases ho : latestSnapshotAtOrBefore snaps p
                (now - cfg.TVL_LOOKBACK_HOURS * 3600) with
            | none => simp [hlt, hlv, isFalsy, ho] at h
            | some o =>
              cases hot : o.tvl_usd with
              | none => simp [hlt, hlv, isFalsy, ho, hot] at h
              | some ov =>
                by_cases hov : ov = 0
                · simp [hlt, hlv, isFalsy, ho, hot, hov] at h
                · by_cases hgt :
                      (ov - lv) / ov > cfg.TVL_DROP_THRESHOLD
                  · exact ⟨l, o, lv, ov, rfl, rfl, hlt, hot, hlv, hov, hgt⟩
                  · simp [hlt, hlv, isFalsy, ho, hot, hov, hgt] at h
    · rintro ⟨l, o, lv, ov, hl, ho, hlt, hot, hlv, hov, hgt⟩
      unfold tvl_candidate
      rw [hl]
      simp [hlt, hlv, isFalsy, ho, hot, hov, hgt]
  · intro msg alerts nextId hc hopen
    unfold check_tvl_drop
    rw [hc]
    exact create_alert_new alerts nextId p "tvl_drop" "critical" msg now hopen

/-- C2 amended witness: the 50%-drop example discharges the create-path
hypotheses at the candidate computed on `drop50Snaps`. -/
theorem C2_tvl_drop_amended_witness :
    (tvl_candidate drop50Snaps "p" 90000 settings).isSome = true ∧
    ∀ msg, tvl_candidate drop50Snaps "p" 90000 settings = some msg →
      check_tvl_drop drop50Snaps [] 0 "p" 90000 settings =
        ([⟨0, "p", "tvl_drop", "critical", msg, 90000, none⟩], 1,
          some ⟨0, "p", "tvl_drop", "critical", msg, 90000, none⟩) := by
  constructor
  · have h := C2_tvl_drop_amended drop50Snaps "p" 90000 settings
    refine h.1.mpr ⟨⟨"p", 90000, some 50000000, none, none⟩,
      ⟨"p", 0, some 100000000, none, none⟩, 50000000, 100000000,
      by norm_num [latestSnapshot, drop50Snaps, moreRecent, List.filter],
      by norm_num [latestSnapshotAtOrBefore, drop50Snaps, moreRecent,
        List.filter, settings],
      rfl, rfl, by norm_num, by norm_num, by norm_num [settings]⟩
  · intro msg hc
    have h := (C2_tvl_drop_amended drop50Snaps "p" 90000 settings).2.1
      msg [] 0 hc (by rfl)
    simpa using h

/-- C6 witness: a store with only a resolved alert is "healthy", and a
store with one open critical alert is "critical". -/
theorem C6_status_projection_witness :
    get_protocol_status c6Alerts "p" = "healthy" ∧
    get_protocol_status [⟨1, "p", "apy_low", "critical", "m", 0, none⟩]
      "p" = "critical" := by
  refine ⟨(C6_status_projection c6Alerts "p").2.2.2.2 (by decide), ?_⟩
  exact (C6_status_projection
      [⟨1, "p", "apy_low", "critical", "m", 0, none⟩] "p").1.mpr
    ⟨⟨1, "p", "apy_low", "critical", "m", 0, none⟩, by decide, rfl, rfl,
      rfl⟩

/-- C3 counterexample: the claim says `latest` is the most recent sample
with a non-null APY, so on `nullLatestApySnaps` (latest-with-APY 1.5) it
predicts a warning alert; the code takes the most recent sample overall,
whose APY is NULL, and creates none. -/
theorem C3_latest_selection_counterexample :
    apy_candidate_spec nullLatestApySnaps "p" settings = true ∧
    check_apy_low nullLatestApySnaps [] 0 "p" 0 settings = ([], 0, none) := by
  constructor
  · norm_num [apy_candidate_spec, latestWithField, nullLatestApySnaps,
      settings, moreRecent, List.filter]
  · norm_num [check_apy_low, apy_candidate, latestSnapshot,
      nullLatestApySnaps, settings, moreRecent, List.filter, isFalsy]

/-- C3 amended: `latest` is the most recent sample of the protocol
regardless of fields; the rule skips if its APY is null or 0, and
otherwise creates a warning `apy_low` alert iff `apy < 2.0`; APY 1.5 fires
a warning, APY 2.5 does not. -/
theorem C3_apy_low_amended (snaps : List ProtocolSnapshot) (p : String)
    (cfg : Settings) :
    ((apy_candidate snaps p cfg).isSome = true ↔
      ∃ l v, latestSnapshot snaps p = some l ∧ l.apy_7d = some v ∧
        v ≠ 0 ∧ v < cfg.APY_MIN_THRESHOLD) ∧
    (∀ msg alerts nextId now, apy_candidate snaps p cfg = some msg →
      hasOpenAlert alerts p "apy_low" = false →
      check_apy_low snaps alerts nextId p now cfg =
        (alerts ++ [⟨nextId, p, "apy_low", "warning", msg, now, none⟩],
          nextId + 1,
          some ⟨nextId, p, "apy_low", "warning", msg, now, none⟩)) ∧
    ((check_apy_low apy15Snaps [] 0 "p" 0 settings).2.2.map
      (fun a => (a.alert_type, a.severity)) = some ("apy_low", "warning")) ∧
    check_apy_low apy25Snaps [] 0 "p" 0 settings = ([], 0, none) := by
  refine ⟨?_, ?_,
    by norm_num [check_apy_low, apy_candidate, latestSnapshot, apy15Snaps,
      settings, moreRecent, List.filter, isFalsy, create_alert,
      hasOpenAlert],
    by norm_num [check_apy_low, apy_candidate, latestSnapshot, apy25Snaps,
      settings, moreRecent, List.filter, isFalsy]⟩
  · constructor
    · intro h
      unfold apy_candidate at h
      cases hl : latestSnapshot snaps p with
      | none => rw [hl] at h; simp at h
      | some l =>
        rw [hl] at h
        cases hat : l.apy_7d with
        | none => simp [hat, isFalsy] at h
        | some v =>
          by_cases hv : v = 0
          · simp [hat, hv, isFalsy] at h
          · by_cases hlt : v < cfg.APY_MIN_THRESHOLD
            · exact ⟨l, v, rfl, hat, hv, hlt⟩
            · simp [hat, hv, isFalsy, hlt] at h
    · rintro ⟨l, v, hl, hat, hv, hlt⟩
      unfold apy_candidate
      rw [hl]
      simp [hat, hv, isFalsy, hlt]
  · intro msg alerts nextId now hc hopen
    unfold check_apy_low
    rw [hc]
    exact create_alert_new alerts nextId p "apy_low" "warning" msg now hopen

/-- C3 amended witness: the APY-1.5 example discharges the create-path
hypotheses at the candidate computed on `apy15Snaps`. -/
theorem C3_apy_low_amended_witness :
    (apy_candidate apy15Snaps "p" settings).isSome = true ∧
    ∀ msg, apy_candidate apy15Snaps "p" settings = some msg →
      check_apy_low apy15Snaps [] 0 "p" 7 settings =
        ([⟨0, "p", "apy_low", "warning", msg, 7, none⟩], 1,
          some ⟨0, "p", "apy_low", "warning", msg, 7, none⟩) := by
  constructor
  · have h := C3_apy_low_amended apy15Snaps "p" settings
    refine h.1.mpr ⟨⟨"p", 0, none, some (3/2), none⟩, 3/2,
      by norm_num [latestSnapshot, apy15Snaps, moreRecent, List.filter],
      rfl, by norm_num, by norm_num [settings]⟩
  · intro msg hc
    have h := (C3_apy_low_amended apy15Snaps "p" settings).2.1
      msg [] 0 7 hc (by rfl)
    simpa using h

/-- C7 counterexample: for the lending protocol "felix" the claim says
`latest` is the most recent sample with non-null utilization, so on
`nullLatestUtilSnaps` (latest-with-utilization 0.99) it predicts a warning
alert; the code takes the most recent sample overall, whose utilization is
NULL, and creates none. -/
theorem C7_latest_selection_counterexample :
    LENDING_PROTOCOLS.contains "felix" = true ∧
    util_candidate_spec nullLatestUtilSnaps "felix" settings = true ∧
    check_utilization_high nullLatestUtilSnaps [] 0 "felix" 0 settings =
      ([], 0, none) := by
  refine ⟨rfl, ?_, ?_⟩
  · norm_num [util_candidate_spec, latestWithField, nullLatestUtilSnaps,
      settings, moreRecent, List.filter]
  · norm_num [check_utilization_high, util_candidate, latestSnapshot,
      nullLatestUtilSnaps, settings, moreRecent, List.filter, isFalsy]

/-- C7 amended: the utilization rule runs only for protocols in the static
lending set — a non-lending protocol never yields a `utilization_high`
alert (e.g. a non-lending protocol with utilization 0.99 yields nothing) —
and for a lending protocol `latest` is the most recent sample overall; the
rule skips if its utilization is null or 0 and fires iff it exceeds 0.95,
creating a warning alert. -/
theorem C7_utilization_lending_amended (snaps : List ProtocolSnapshot)
    (alerts : List ProtocolAlert) (nextId : Nat) (p : String) (now : Int)
    (cfg : Settings) :
    (LENDING_PROTOCOLS.contains p = false →
      ∀ a ∈ (detect_protocol snaps alerts nextId p now cfg).2.2,
        a.alert_type ≠ "utilization_high") ∧
    ((util_candidate snaps p cfg).isSome = true ↔
      ∃ l v, latestSnapshot snaps p = some l ∧ l.utilization_rate = some v ∧
        v ≠ 0 ∧ v > cfg.UTILIZATION_MAX_THRESHOLD) ∧
    (∀ msg, util_candidate snaps p cfg = some msg →
      hasOpenAlert alerts p "utilization_high" = false →
      check_utilization_high snaps alerts nextId p now cfg =
        (alerts ++
          [⟨nextId, p, "utilization_high", "warning", msg, now, none⟩],
          nextId + 1,
          some ⟨nextId, p, "utilization_high", "warning", msg, now,
            none⟩)) ∧
    (detect_protocol nonLendingUtilSnaps [] 0 "hlp" 10 settings).2.2 =
      [] := by
  refine ⟨?_, ?_, ?_,
    by norm_num [detect_protocol, check_tvl_drop, check_apy_low,
      tvl_candidate, apy_candidate, latestSnapshot,
      latestSnapshotAtOrBefore, nonLendingUtilSnaps, settings, moreRecent,
      List.filter, isFalsy, LENDING_PROTOCOLS,
      show ("hlp" : String) ≠ "felix" by decide]⟩
  · intro hl a ha
    unfold detect_protocol at ha
    rw [hl] at ha
    simp only [Bool.false_eq_true, if_false, Option.toList_none,
      List.append_nil, List.mem_append] at ha
    rcases ha with ha | ha
    · rw [Option.mem_toList, Option.mem_def] at ha
      rw [check_tvl_drop_created_type snaps alerts nextId p now cfg a ha]
      decide
    · rw [Option.mem_toList, Option.mem_def] at ha
      rw [check_apy_low_created_type _ _ _ _ _ _ a ha]
      decide
  · constructor
    · intro h
      unfold util_candidate at h
      cases hl : latestSnapshot snaps p with
      | none => rw [hl] at h; simp at h
      | some l =>
        rw [hl] at h
        cases hut : l.utilization_rate with
        | none => simp [hut, isFalsy] at h
        | some v =>
          by_cases hv : v = 0
          · simp [hut, hv, isFalsy] at h
          · by_cases hgt : v > cfg.UTILIZATION_MAX_THRESHOLD
            · exact ⟨l, v, rfl, hut, hv, hgt⟩
            · simp [hut, hv, isFalsy, hgt] at h
    · rintro ⟨l, v, hl, hut, hv, hgt⟩
      unfold util_candidate
      rw [hl]
      simp [hut, hv, isFalsy, hgt]
  · intro msg hc hopen
    unfold check_utilization_high
    rw [hc]
    exact create_alert_new alerts nextId p "utilization_high" "warning" msg
      now hopen

/-- C7 amended witness: lending protocol "felix" with utilization 0.99 in
its newest sample fires the rule; the non-lending example is closed. -/
theorem C7_utilization_lending_amended_witness :
    (∀ a ∈ (detect_protocol nonLendingUtilSnaps [] 0 "hlp" 10
        settings).2.2, a.alert_type ≠ "utilization_high") ∧
    (util_candidate [⟨"felix", 0, none, none, some (99/100)⟩] "felix"
      settings).isSome = true ∧
    ∀ msg, util_candidate [⟨"felix", 0, none, none, some (99/100)⟩]
        "felix" settings = some msg →
      check_utilization_high [⟨"felix", 0, none, none, some (99/100)⟩]
          [] 0 "felix" 10 settings =
        ([⟨0, "felix", "utilization_high", "warning", msg, 10, none⟩], 1,
          some ⟨0, "felix", "utilization_high", "warning", msg, 10,
            none⟩) := by
  refine ⟨(C7_utilization_lending_amended nonLendingUtilSnaps [] 0 "hlp"
    10 settings).1 (by decide), ?_, ?_⟩
  · have h := C7_utilization_lending_amended
      [⟨"felix", 0, none, none, some (99/100)⟩] [] 0 "felix" 10 settings
    refine h.2.1.mpr ⟨⟨"felix", 0, none, none, some (99/100)⟩, 99/100,
      by norm_num [latestSnapshot, moreRecent, List.filter],
      rfl, by norm_num, by norm_num [settings]⟩
  · intro msg hc
    have h := (C7_utilization_lending_amended
      [⟨"felix", 0, none, none, some (99/100)⟩] [] 0 "felix" 10
      settings).2.2.1 msg hc (by rfl)
    simpa using h

/-- C9 witness: storing zeros into an empty table, and a detection pass
whose latest sample has TVL 0, APY 0, utilization 0. -/
theorem C9_zero_is_missing_witness :
    store_snapshot [] "felix" 2 (some 0) (some 0) (some 0) =
      ([⟨"felix", 2, none, none, none⟩], true) ∧
    check_tvl_drop [⟨"felix", 2, some 0, some 0, some 0⟩] [] 0 "felix" 2
      settings = ([], 0, none) ∧
    check_apy_low [⟨"felix", 2, some 0, some 0, some 0⟩] [] 0 "felix" 2
      settings = ([], 0, none) ∧
    check_utilization_high [⟨"felix", 2, some 0, some 0, some 0⟩] [] 0
      "felix" 2 settings = ([], 0, none) := by
  have h := C9_zero_is_missing [⟨"felix", 2, some 0, some 0, some 0⟩] [] 0
    "felix" 2 2 settings ⟨"felix", 2, some 0, some 0, some 0⟩
  have h9 := C9_zero_is_missing ([] : List ProtocolSnapshot) [] 0
    "felix" 2 2 settings ⟨"felix", 2, some 0, some 0, some 0⟩
  obtain ⟨h1, h2, h3⟩ := h.2 (by decide)
  exact ⟨h9.1 (by decide), h1 (Or.inl rfl), h2 (Or.inl rfl), h3 (Or.inl rfl)⟩

end DefiMonitor
